import Mathlib

/-!
Shallow embedding of `src/flir_ptu_driver/src/node.cpp` (the FLIR PTU ROS
node): the session lifecycle (`connect` / `disconnect` / `ok`), the five
command callbacks, the polling publisher (`spinCallback`), the diagnostics
task (`produce_diagnostics`) and the supervisor retry loop in `main`.

Modelling conventions:
* doubles and floats are modelled as exact rationals (`ℚ`);
* the device protocol (class `PTU`, external to this file's source) is
  opaque: each call a handler makes on it is recorded in a `ProtoCall`
  trace; responses a handler reads (position, speed, mode) come from a
  `Protocol` stub argument;
* wall-clock timestamps are modelled at millisecond resolution as `ℤ`
  (the code compares `total_milliseconds()` against the limit);
* a C++ member call through a NULL `m_pantilt` pointer is undefined
  behavior and is modelled as `Option.none`;
* ROS logging, parameter publication and pub/sub registration are not
  modelled except where a claim needs them (error reports in `connect`,
  the sleep/log events of `main`'s retry loop).
-/

namespace FlirPtu

/-- The two axes of the pan-tilt unit (`PTU_PAN`, `PTU_TILT`). -/
inductive Axis where
  | pan
  | tilt
deriving DecidableEq

/-- The PTU control mode (`PTU_POSITION` / `PTU_VELOCITY`). -/
inductive Mode where
  | position
  | velocity
deriving DecidableEq

/-- One call made on the device protocol (the `PTU` object). -/
inductive ProtoCall where
  | setPosition (a : Axis) (v : ℚ)
  | setSpeed (a : Axis) (v : ℚ)
  | offsetPosition (pan tilt : ℚ)
  | home
  | sendCommand (buf : List Nat) (len : Nat)
deriving DecidableEq

/-- The live session object owned through `m_pantilt` (a `PTU` instance);
`dryRun` records whether `setDryRun(true)` was called on it. -/
structure PTUSession where
  dryRun : Bool
deriving DecidableEq

/-- The mutable state of `flir_ptu_driver::Node` that the callbacks touch:
`m_pantilt` (nullable owning pointer, here `Option`), `m_joint_name_prefix`
(field `jointNameBase`), `default_velocity_`, `m_jog_step_rads_`,
`m_jog_mark_` (ms timestamp) and `m_jog_time_limit_`. -/
structure NodeState where
  pantilt : Option PTUSession
  jointNameBase : String
  defaultVelocity : ℚ
  jogStepRads : ℚ
  jogMark : ℤ
  jogTimeLimit : ℚ
deriving DecidableEq

/-- `Node::ok()`: `return m_pantilt != NULL;`. -/
def ok (s : NodeState) : Bool :=
  s.pantilt.isSome

/-- `Node::Node`: `m_pantilt` starts NULL, parameters are read
(`joint_name_prefix` default `"ptu_"`, `jog_step_rads` default `0.01`,
`jog_period_min_millis` default `250`), and `m_jog_mark_` is set to the
current time. `default_velocity_` is uninitialized until `connect`; it is
taken as a parameter here. -/
def nodeInit (now : ℤ) (jointNameBase : String) (jogStepRads jogTimeLimit : ℚ)
    (defaultVelocity : ℚ) : NodeState :=
  { pantilt := none
    jointNameBase := jointNameBase
    defaultVelocity := defaultVelocity
    jogStepRads := jogStepRads
    jogMark := now
    jogTimeLimit := jogTimeLimit }

/-- `Node::disconnect()`: if `m_pantilt != NULL`, `delete m_pantilt` (which
closes the connection) and set it to NULL. The returned Bool records
whether a live link was actually closed by this call. -/
def disconnect (s : NodeState) : NodeState × Bool :=
  match s.pantilt with
  | some _ => ({ s with pantilt := none }, true)
  | none => (s, false)

/-- The configuration parameters `Node::connect()` reads (`~port`,
`~baud`, `~limits_enabled`, `~default_velocity`, `~dry_run`). -/
structure ConnectConfig where
  port : String
  baud : ℤ
  limitsEnabled : Bool
  defaultVelocity : ℚ
  dryRun : Bool
deriving DecidableEq

/-- Outcomes of the two external operations `Node::connect()` attempts:
whether `m_ser.open()` throws (`openOk`) and whether
`m_pantilt->initialize()` returns true (`initOk`). -/
structure ConnectEnv where
  openOk : Bool
  initOk : Bool
deriving DecidableEq

/-- `Node::connect()`: disconnects first when already connected, reads
parameters, opens the serial port (on `IOException`, logs an error and
returns with no `PTU` constructed), constructs the `PTU`, and calls
`initialize()`; on initialization failure it logs an error and then either
disconnects and returns (when not `dry_run`) or records dry-run mode on
the session and proceeds. The returned Bool records whether a
`ROS_ERROR` was emitted. Calibration publication, limit disabling and
pub/sub registration after this point do not affect the node state
modelled here and are omitted. -/
def connect (s : NodeState) (cfg : ConnectConfig) (env : ConnectEnv) :
    NodeState × Bool :=
  let s0 := if ok s = true then (disconnect s).1 else s
  let s1 := { s0 with defaultVelocity := cfg.defaultVelocity }
  if env.openOk = false then
    (s1, true)
  else
    let s2 := { s1 with pantilt := some { dryRun := false } }
    if env.initOk = false then
      if cfg.dryRun = false then ((disconnect s2).1, true)
      else ({ s2 with pantilt := some { dryRun := true } }, true)
    else
      (s2, false)

/-- `Node::resetCallback`: logs and calls `m_pantilt->home()` with no
`ok()` guard; when `m_pantilt` is NULL the member call is an invalid
dereference, modelled as `none`. -/
def resetCallback (s : NodeState) : Option (NodeState × List ProtoCall) :=
  match s.pantilt with
  | none => none
  | some _ => some (s, [ProtoCall.home])

/-- `Node::ptuDirectControlCallback`: after the `ok()` guard, forwards the
message's byte buffer and its declared `length` field unchanged to
`m_pantilt->sendCommand(command, length)`; no check relates `length` to
the buffer's size. -/
def ptuDirectControlCallback (s : NodeState) (command : List Nat) (len : Nat) :
    NodeState × List ProtoCall :=
  if ok s = false then (s, [])
  else (s, [ProtoCall.sendCommand command len])

/-- `Node::ptuJogCallback`: guard on `ok()`, then reject when the elapsed
milliseconds since `m_jog_mark_` are below `m_jog_time_limit_`, then
reject when neither angular component has absolute value 1; otherwise call
`m_pantilt->offsetPosition(x * jogStep, y * jogStep)` and set
`m_jog_mark_ = now` unconditionally afterwards. `offsetOk` is the Bool the
protocol call returns; in the source it only selects a debug log and has
no effect on state or on further calls. -/
def ptuJogCallback (s : NodeState) (now : ℤ) (x y : ℚ) (_offsetOk : Bool) :
    NodeState × List ProtoCall :=
  if ok s = false then (s, [])
  else if ((now - s.jogMark : ℤ) : ℚ) < s.jogTimeLimit then (s, [])
  else if |x| ≠ 1 ∧ |y| ≠ 1 then (s, [])
  else
    ({ s with jogMark := now },
     [ProtoCall.offsetPosition (x * s.jogStepRads) (y * s.jogStepRads)])

/-- `Node::cmdCallback`: guard on `ok()`, require exactly two position
entries, take the two velocities when exactly two are supplied and
`default_velocity_` for both axes otherwise, then issue pan position,
tilt position, pan speed, tilt speed in that order. -/
def cmdCallback (s : NodeState) (position velocity : List ℚ) :
    NodeState × List ProtoCall :=
  if ok s = false then (s, [])
  else if position.length ≠ 2 then (s, [])
  else
    let pan := position.getD 0 0
    let tilt := position.getD 1 0
    let panspeed := if velocity.length = 2 then velocity.getD 0 0 else s.defaultVelocity
    let tiltspeed := if velocity.length = 2 then velocity.getD 1 0 else s.defaultVelocity
    (s, [ProtoCall.setPosition Axis.pan pan, ProtoCall.setPosition Axis.tilt tilt,
         ProtoCall.setSpeed Axis.pan panspeed, ProtoCall.setSpeed Axis.tilt tiltspeed])

/-- `Node::rotateRelativeCallback`: guard on `ok()`, then call
`m_pantilt->offsetPosition(x, y)` with the raw radian offsets; the
returned Bool (`offsetOk`) only selects a debug log. -/
def rotateRelativeCallback (s : NodeState) (x y : ℚ) (_offsetOk : Bool) :
    NodeState × List ProtoCall :=
  if ok s = false then (s, [])
  else (s, [ProtoCall.offsetPosition x y])

/-- Stub of the device protocol's query side: what `getPosition`,
`getSpeed` and `getMode` return. -/
structure Protocol where
  position : Axis → ℚ
  speed : Axis → ℚ
  mode : Mode

/-- The diagnostic status `Node::produce_diagnostics` fills in:
`summary(OK, "All normal.")` plus the "PTU Mode" value. -/
structure DiagStatus where
  level : Nat
  message : String
  ptuMode : String
deriving DecidableEq

/-- `Node::produce_diagnostics`: queries `m_pantilt->getMode()` with no
connected-session guard of its own; when `m_pantilt` is NULL the member
call is an invalid dereference, modelled as `none`. -/
def produce_diagnostics (s : NodeState) (proto : Protocol) : Option DiagStatus :=
  match s.pantilt with
  | none => none
  | some _ =>
      some { level := 0
             message := "All normal."
             ptuMode := if proto.mode = Mode.position then "Position" else "Velocity" }

/-- The published joint-state message: names, positions, velocities. -/
structure JointState where
  name : List String
  position : List ℚ
  velocity : List ℚ
deriving DecidableEq

/-- `Node::spinCallback`: returns immediately when not `ok()`; otherwise
reads pan/tilt position and speed from the protocol, publishes exactly
one joint-state message whose names are the configured base concatenated
with "pan" and "tilt", and triggers the diagnostics task via
`m_updater->update()`. Returns the list of published messages and the
diagnostics evaluation (if any). -/
def spinCallback (s : NodeState) (proto : Protocol) :
    List JointState × Option DiagStatus :=
  if ok s = false then ([], none)
  else
    let pan := proto.position Axis.pan
    let tilt := proto.position Axis.tilt
    let panspeed := proto.speed Axis.pan
    let tiltspeed := proto.speed Axis.tilt
    let joint_state : JointState :=
      { name := [s.jointNameBase ++ "pan", s.jointNameBase ++ "tilt"]
        position := [pan, tilt]
        velocity := [panspeed, tiltspeed] }
    ([joint_state], produce_diagnostics s proto)

/-- Observable events of `main`'s supervisor loop: a `connect()` attempt
on a freshly constructed node, the `ROS_ERROR` logged when the node is not
`ok()` after the spin phase, and the fixed `ros::Duration(1.0).sleep()`. -/
inductive SupEvent where
  | connectAttempt
  | errorLog
  | sleep (seconds : ℚ)
deriving DecidableEq

/-- One iteration of the `while (ros::ok())` loop in `main`: construct a
fresh `Node` (state `init`), call `connect`, let the event loop spin
(nothing dispatched during the spin phase releases the session), then if
`!ptu_node.ok()` log an error and sleep 1 second. -/
def supervisorIter (init : NodeState) (cfg : ConnectConfig) (env : ConnectEnv) :
    List SupEvent :=
  SupEvent.connectAttempt ::
    (if ok (connect init cfg env).1 = false then
       [SupEvent.errorLog, SupEvent.sleep 1]
     else [])

/-- The supervisor loop of `main`, driven by one `ConnectEnv` per
iteration; the list ends when `ros::ok()` becomes false (process
shutdown). Each iteration starts over from the fresh node state `init`:
no node state survives across iterations. -/
def supervisorRun (init : NodeState) (cfg : ConnectConfig) :
    List ConnectEnv → List SupEvent
  | [] => []
  | env :: rest => supervisorIter init cfg env ++ supervisorRun init cfg rest

/-- A connected sample node state (session live, defaults from the node's
parameter defaults: base "ptu_", jog step 0.01 rad, jog period 250 ms). -/
def sampleConnected : NodeState :=
  { pantilt := some { dryRun := false }
    jointNameBase := "ptu_"
    defaultVelocity := 1
    jogStepRads := 1 / 100
    jogMark := 0
    jogTimeLimit := 250 }

/-- The same sample state with no live session (`m_pantilt == NULL`). -/
def sampleDisconnected : NodeState :=
  { sampleConnected with pantilt := none }

/-- A sample connect configuration. -/
def sampleCfg : ConnectConfig :=
  { port := "/dev/ttyUSB0"
    baud := 9600
    limitsEnabled := true
    defaultVelocity := 1
    dryRun := false }

/-- A stub protocol reporting position (2, 3) and velocity (4, 5). -/
def stubProtocol : Protocol :=
  { position := fun a => match a with | Axis.pan => 2 | Axis.tilt => 3
    speed := fun a => match a with | Axis.pan => 4 | Axis.tilt => 5
    mode := Mode.position }

/-- Claim C1: every command handler should be a no-op making no protocol
call when no session is connected. The motion, direct, jog and
rotate-relative handlers are indeed guarded no-ops, but the reset handler
has no guard: evaluated at the failing input (a reset arriving while
disconnected) it dereferences the NULL session (`none`), not the silent
no-op `some (s, [])` the claim requires. -/
theorem resetCallback_unguarded_when_disconnected :
    cmdCallback sampleDisconnected [1, 2] [3, 4] = (sampleDisconnected, [])
    ∧ ptuDirectControlCallback sampleDisconnected [1] 1 = (sampleDisconnected, [])
    ∧ ptuJogCallback sampleDisconnected 1000 1 0 true = (sampleDisconnected, [])
    ∧ rotateRelativeCallback sampleDisconnected 1 1 true = (sampleDisconnected, [])
    ∧ resetCallback sampleDisconnected = none :=
  ⟨rfl, rfl, rfl, rfl, rfl⟩

/-- Claim C2, counterexample: a direct command whose declared length 5
exceeds its 3-byte buffer is not rejected; while connected, the protocol's
raw-send is invoked with exactly that oversize length. -/
theorem direct_oversize_length_reaches_protocol :
    ([10, 20, 30] : List Nat).length < 5
    ∧ (ptuDirectControlCallback sampleConnected [10, 20, 30] 5).2
        = [ProtoCall.sendCommand [10, 20, 30] 5] :=
  ⟨by decide, rfl⟩

/-- Claim C2, amended: the direct handler performs no length validation;
for every direct command processed while connected, the buffer and the
declared length are forwarded unchanged to the protocol's raw-send in a
single call, even when the declared length exceeds the buffer size. -/
theorem ptuDirectControlCallback_forwards_unvalidated (s : NodeState)
    (command : List Nat) (len : Nat) (h : ok s = true) :
    ptuDirectControlCallback s command len = (s, [ProtoCall.sendCommand command len]) := by
  simp [ptuDirectControlCallback, h]

/-- Witness for the amended C2 theorem at a concrete oversized input. -/
theorem ptuDirectControlCallback_forwards_unvalidated_witness :
    ptuDirectControlCallback sampleConnected [10, 20, 30] 5
      = (sampleConnected, [ProtoCall.sendCommand [10, 20, 30] 5]) :=
  ptuDirectControlCallback_forwards_unvalidated sampleConnected [10, 20, 30] 5 rfl

/-- Claim C3: while connected, a motion command with position length ≠ 2
is dropped with no protocol call; with position length 2 the handler
issues exactly pan position, tilt position, pan speed, tilt speed in that
order, the speeds being the supplied velocities when exactly two are given
and the configured default velocity for both axes otherwise. -/
theorem cmdCallback_validation_and_order (s : NodeState)
    (position velocity : List ℚ) (h : ok s = true) :
    (position.length ≠ 2 → cmdCallback s position velocity = (s, []))
    ∧ (position.length = 2 →
        cmdCallback s position velocity =
          (s, [ProtoCall.setPosition Axis.pan (position.getD 0 0),
               ProtoCall.setPosition Axis.tilt (position.getD 1 0),
               ProtoCall.setSpeed Axis.pan
                 (if velocity.length = 2 then velocity.getD 0 0 else s.defaultVelocity),
               ProtoCall.setSpeed Axis.tilt
                 (if velocity.length = 2 then velocity.getD 1 0 else s.defaultVelocity)])) := by
  constructor
  · intro hlen
    simp [cmdCallback, h, hlen]
  · intro hlen
    simp [cmdCallback, h, hlen]

/-- Witness for C3: a one-element position list is dropped; a two-element
position with a one-element velocity uses the default velocity (1) on
both axes, in the fixed call order. -/
theorem cmdCallback_validation_and_order_witness :
    cmdCallback sampleConnected [1] [] = (sampleConnected, [])
    ∧ cmdCallback sampleConnected [1, 2] [3] =
        (sampleConnected,
         [ProtoCall.setPosition Axis.pan 1, ProtoCall.setPosition Axis.tilt 2,
          ProtoCall.setSpeed Axis.pan 1, ProtoCall.setSpeed Axis.tilt 1]) := by
  constructor
  · exact (cmdCallback_validation_and_order sampleConnected [1] [] rfl).1 (by decide)
  · have h := (cmdCallback_validation_and_order sampleConnected [1, 2] [3] rfl).2 rfl
    simpa [sampleConnected] using h

/-- Claim C4: a jog in which neither axis direction has magnitude exactly
1 is dropped with no protocol call, whatever the elapsed time; a jog that
passes the connected, rate and magnitude checks applies the offset
direction times jog step on each axis. -/
theorem ptuJogCallback_malformed_dropped (s : NodeState) (now : ℤ) (x y : ℚ)
    (b : Bool) :
    (|x| ≠ 1 → |y| ≠ 1 → ptuJogCallback s now x y b = (s, []))
    ∧ (ok s = true → ¬(((now - s.jogMark : ℤ) : ℚ) < s.jogTimeLimit) →
        (|x| = 1 ∨ |y| = 1) →
        ptuJogCallback s now x y b =
          ({ s with jogMark := now },
           [ProtoCall.offsetPosition (x * s.jogStepRads) (y * s.jogStepRads)])) := by
  constructor
  · intro hx hy
    by_cases h1 : ok s = false
    · simp only [ptuJogCallback, if_pos h1]
    · by_cases h2 : ((now - s.jogMark : ℤ) : ℚ) < s.jogTimeLimit
      · simp only [ptuJogCallback, if_neg h1, if_pos h2]
      · simp only [ptuJogCallback, if_neg h1, if_neg h2, if_pos (And.intro hx hy)]
  · intro hok hrate hmag
    have h1 : ¬(ok s = false) := by simp [hok]
    have h3 : ¬(|x| ≠ 1 ∧ |y| ≠ 1) := by tauto
    simp only [ptuJogCallback, if_neg h1, if_neg hrate, if_neg h3]

/-- Witness for C4: at 1000 ms after the mark (well past the 250 ms
limit), a jog of (1/2, 0) is dropped while a jog of (1, 0) is applied as
an offset of one jog step (0.01 rad) on pan. -/
theorem ptuJogCallback_malformed_dropped_witness :
    ptuJogCallback sampleConnected 1000 (1 / 2) 0 true = (sampleConnected, [])
    ∧ ptuJogCallback sampleConnected 1000 1 0 true =
        ({ sampleConnected with jogMark := 1000 },
         [ProtoCall.offsetPosition (1 / 100) 0]) := by
  constructor
  · refine (ptuJogCallback_malformed_dropped sampleConnected 1000 (1 / 2) 0 true).1 ?_ ?_
    · rw [abs_of_nonneg (by norm_num : (0 : ℚ) ≤ 1 / 2)]
      norm_num
    · rw [abs_zero]
      norm_num
  · have h := (ptuJogCallback_malformed_dropped sampleConnected 1000 1 0 true).2
      rfl (by norm_num [sampleConnected]) (Or.inl abs_one)
    simpa [sampleConnected] using h

/-- Claim C5: the stored jog mark becomes the request's arrival time
exactly when the session is connected, the elapsed time is not below the
configured minimum, and some axis magnitude is exactly 1; it is unchanged
on every rejected jog; and the handler's result does not depend on
whether the protocol's offset call reports success. -/
theorem ptuJogCallback_mark_update (s : NodeState) (now : ℤ) (x y : ℚ)
    (b : Bool) :
    (ptuJogCallback s now x y b).1.jogMark =
      (if ok s = true ∧ ¬(((now - s.jogMark : ℤ) : ℚ) < s.jogTimeLimit)
          ∧ (|x| = 1 ∨ |y| = 1)
       then now else s.jogMark)
    ∧ ptuJogCallback s now x y true = ptuJogCallback s now x y false := by
  refine ⟨?_, rfl⟩
  by_cases h1 : ok s = true
  · have h1f : ¬(ok s = false) := by simp [h1]
    by_cases h2 : ((now - s.jogMark : ℤ) : ℚ) < s.jogTimeLimit
    · have hcond : ¬(ok s = true ∧ ¬(((now - s.jogMark : ℤ) : ℚ) < s.jogTimeLimit)
          ∧ (|x| = 1 ∨ |y| = 1)) := by tauto
      simp only [ptuJogCallback, if_neg h1f, if_pos h2, if_neg hcond]
    · by_cases h3 : |x| = 1 ∨ |y| = 1
      · have hc : ¬(|x| ≠ 1 ∧ |y| ≠ 1) := by tauto
        have hcond : ok s = true ∧ ¬(((now - s.jogMark : ℤ) : ℚ) < s.jogTimeLimit)
            ∧ (|x| = 1 ∨ |y| = 1) := ⟨h1, h2, h3⟩
        simp only [ptuJogCallback, if_neg h1f, if_neg h2, if_neg hc, if_pos hcond]
      · have hc : |x| ≠ 1 ∧ |y| ≠ 1 := by tauto
        have hcond : ¬(ok s = true ∧ ¬(((now - s.jogMark : ℤ) : ℚ) < s.jogTimeLimit)
            ∧ (|x| = 1 ∨ |y| = 1)) := by tauto
        simp only [ptuJogCallback, if_neg h1f, if_neg h2, if_pos hc, if_neg hcond]
  · have h1f : ok s = false := by simpa using h1
    have hcond : ¬(ok s = true ∧ ¬(((now - s.jogMark : ℤ) : ℚ) < s.jogTimeLimit)
        ∧ (|x| = 1 ∨ |y| = 1)) := by tauto
    simp only [ptuJogCallback, if_pos h1f, if_neg hcond]

/-- Claim C6: disconnect is idempotent: it always leaves no live session
(`isConnected` false), a second disconnect is a no-op producing the same
state and closing no link, and a link is actually closed exactly when a
session existed. -/
theorem disconnect_idempotent (s : NodeState) :
    (disconnect s).1.pantilt = none
    ∧ ok (disconnect s).1 = false
    ∧ disconnect (disconnect s).1 = ((disconnect s).1, false)
    ∧ (disconnect s).2 = ok s := by
  cases h : s.pantilt <;> simp [disconnect, ok, h]

/-- Claim C7: after connect, the session exists iff the port opened and
either initialization succeeded or the dry-run flag was set (in the latter
case with dry-run recorded on the session); an error is reported exactly
when the port failed to open or initialization failed; and the node is
connected exactly when the port opened and initialization succeeded or
dry-run held. In particular an open failure leaves no session and reports
an error, and a non-dry-run initialization failure destroys the
just-created session. -/
theorem connect_error_paths (s : NodeState) (cfg : ConnectConfig)
    (env : ConnectEnv) :
    (connect s cfg env).1.pantilt =
      (if env.openOk then
         (if env.initOk then some { dryRun := false }
          else if cfg.dryRun then some { dryRun := true } else none)
       else none)
    ∧ (connect s cfg env).2 = (!env.openOk || !env.initOk)
    ∧ ok (connect s cfg env).1 = (env.openOk && (env.initOk || cfg.dryRun)) := by
  cases hopen : env.openOk <;> cases hinit : env.initOk <;>
    cases hdry : cfg.dryRun <;> cases hp : s.pantilt <;>
      simp [connect, disconnect, ok, hopen, hinit, hdry, hp]

/-- Claim C8: a poll tick after a successful connect (port opened,
initialization succeeded) emits exactly one joint-state snapshot whose
positions and velocities are the stub protocol's current pan/tilt position
and speed and whose two names are the configured base concatenated with
"pan" and with "tilt". -/
theorem spinCallback_roundtrip (s : NodeState) (cfg : ConnectConfig)
    (env : ConnectEnv) (proto : Protocol)
    (hopen : env.openOk = true) (hinit : env.initOk = true) :
    (spinCallback (connect s cfg env).1 proto).1 =
      [{ name := [s.jointNameBase ++ "pan", s.jointNameBase ++ "tilt"]
         position := [proto.position Axis.pan, proto.position Axis.tilt]
         velocity := [proto.speed Axis.pan, proto.speed Axis.tilt] }] := by
  cases hp : s.pantilt <;>
    simp [connect, disconnect, spinCallback, ok, hopen, hinit, hp]

/-- Witness for C8 at a concrete configuration and stub protocol. -/
theorem spinCallback_roundtrip_witness :
    (spinCallback (connect sampleDisconnected sampleCfg
        { openOk := true, initOk := true }).1 stubProtocol).1 =
      [{ name := ["ptu_pan", "ptu_tilt"]
         position := [2, 3]
         velocity := [4, 5] }] := by
  have h := spinCallback_roundtrip sampleDisconnected sampleCfg
    { openOk := true, initOk := true } stubProtocol rfl rfl
  simpa [sampleDisconnected, sampleConnected, stubProtocol] using h

/-- Claim C9: over any run of the supervisor loop, every iteration makes
exactly one connect attempt on the fresh node state (so attempts never
stop while the process runs: there is no retry ceiling), every sleep event
in the trace is the flat 1-second retry delay, and an iteration is
followed unconditionally by the rest of the run — no connect failure or
lost connection terminates the loop. -/
theorem supervisor_flat_retry (init : NodeState) (cfg : ConnectConfig)
    (envs : List ConnectEnv) :
    (supervisorRun init cfg envs).count SupEvent.connectAttempt = envs.length
    ∧ ((supervisorRun init cfg envs).all fun ev =>
         match ev with
         | SupEvent.sleep d => d == 1
         | _ => true) = true
    ∧ (∀ env rest, supervisorRun init cfg (env :: rest) =
        supervisorIter init cfg env ++ supervisorRun init cfg rest)
    ∧ ∀ env, supervisorIter init cfg env =
        SupEvent.connectAttempt ::
          (if ok (connect init cfg env).1 = false then
             [SupEvent.errorLog, SupEvent.sleep 1]
           else []) := by
  refine ⟨?_, ?_, fun env rest => rfl, fun env => rfl⟩
  · induction envs with
    | nil => rfl
    | cons e es ih =>
        by_cases h : ok (connect init cfg e).1 = false <;>
          simp [supervisorRun, supervisorIter, h, List.count_append,
            List.count_cons, ih]
  · induction envs with
    | nil => rfl
    | cons e es ih =>
        by_cases h : ok (connect init cfg e).1 = false <;>
          simp [supervisorRun, supervisorIter, h, List.all_append, ih]

/-- Claim C10: the diagnostics task dereferences the session with no guard
of its own (it evaluates to a status exactly when a session exists), and
the poll tick triggers the diagnostics evaluation exactly in its connected
branch, so diagnostics is evaluated only while a session exists. -/
theorem diagnostics_requires_session (s : NodeState) (proto : Protocol) :
    (produce_diagnostics s proto).isSome = ok s
    ∧ (spinCallback s proto).2 =
        (if ok s = true then produce_diagnostics s proto else none)
    ∧ (spinCallback s proto).2.isSome = ok s := by
  cases hp : s.pantilt <;>
    simp [produce_diagnostics, spinCallback, ok, hp]

end FlirPtu
